import Mathlib

/- Shallow embedding of the synchronization-and-voting core of the
   theset-vercel repository: the save/sync functions of
   src/lib/api/database (saveArtistToDatabase, saveShowToDatabase), the
   artist track cache (fetchAndStoreArtistTracks) and the show-detail
   aggregation hook (src/hooks/use-show-detail.ts).  Every awaited call to
   an external collaborator (the supabase store, the spotify catalog, the
   Date formatter) is represented by an explicit parameter carrying the
   outcome of that call; a thrown exception is an `Except.error`.  Timestamps
   are modelled as milliseconds since the epoch, and the JavaScript
   floating-point day/hour quotients are replaced by the equivalent exact
   millisecond comparisons. -/

namespace TheSet

/-- JavaScript truthiness of an optional string: null/undefined and "" are falsy. -/
def jsTruthy : Option String → Bool
  | none => false
  | some s => s ≠ ""

/-- JavaScript `a || b` on optional strings: `a` when truthy, otherwise `b`. -/
def jsOrStr (a b : Option String) : Option String :=
  if jsTruthy a then a else b

/-- JavaScript `a || d` landing on a mandatory string default. -/
def jsDefault (a : Option String) (d : String) : String :=
  if jsTruthy a then a.getD d else d

/-- JavaScript truthiness of an optional number: null/undefined and 0 are falsy. -/
def natTruthy : Option Nat → Bool
  | none => false
  | some n => n ≠ 0

/-- JavaScript `a || b || 0` on optional numbers. -/
def jsOrNat (a b : Option Nat) : Nat :=
  if natTruthy a then a.getD 0 else if natTruthy b then b.getD 0 else 0

/-- A track of an artist catalog; only its identity is inspected by the core. -/
structure Track where
  id : String
  title : String
deriving DecidableEq

/-- A setlist entry as read by the availability computation: only the song id is used. -/
structure Song where
  id : String
deriving DecidableEq

/-- The `availableTracks` memo of `useShowDetail`
(src/hooks/use-show-detail.ts lines 119-130): with a non-empty stored
snapshot, keep the stored tracks whose id is not among the setlist ids;
with an empty stored snapshot, delegate to the `getAvailableTracks`
fallback supplied by the artist-track hook. -/
def availableTracks (storedTracksData : List Track) (setlist : List Song)
    (getAvailableTracks : List Song → List Track) : List Track :=
  if storedTracksData.length > 0 then
    let setlistIds := setlist.map Song.id
    storedTracksData.filter (fun t => !(setlistIds.contains t.id))
  else
    getAvailableTracks setlist

/-- Modelled from the spec: the `getAvailableTracks` fallback exported by the
artist-track hook (src/hooks/use-artist-tracks.ts, whose source is not in the
sources here) is described in section 4.2 as the fallback complement
computation: the fetched tracks whose id is absent from the setlist. -/
def getAvailableTracksFallback (tracks : List Track) :
    List Song → List Track :=
  fun sl => tracks.filter (fun t => !((sl.map Song.id).contains t.id))

/-- Specification-side statement of the available-track computation: exactly
the stored tracks whose id does not occur among the setlist ids, in the
original relative order of the stored tracks. -/
def specAvailableTracks (stored : List Track) (setlist : List Song) : List Track :=
  stored.filter (fun t => decide (t.id ∉ setlist.map Song.id))

/-- The `handleAddSong` invocation performed by the add-song click handler,
recording which track universe was passed on. -/
inductive AddSongCall where
  | fromStored (tracks : List Track)
  | fromAll (tracks : List Track)
deriving DecidableEq

/-- The `handleAddSongClick` handler of `useShowDetail`
(src/hooks/use-show-detail.ts lines 133-151), returning the `handleAddSong`
invocation it performs, if any.  `tracks` is the `allTracksData.tracks`
field, which is always an array (defaulted to `[]`). -/
def handleAddSongClick (trackId selectedTrack : Option String)
    (storedTracksData tracks : List Track) : Option AddSongCall :=
  let trackToUse := jsOrStr trackId selectedTrack
  match trackToUse with
  | none => none
  | some t =>
    if t = "" then none
    else if storedTracksData.length > 0
        && storedTracksData.any (fun tr => tr.id == t) then
      some (.fromStored storedTracksData)
    else
      some (.fromAll tracks)

/-- C2 fails as stated: with an empty stored-track list (and the fallback
described by the spec, over a non-empty fetched universe) the memo does not
return the empty filtered stored list but the result of the fallback. -/
theorem c2_counterexample :
    availableTracks [] [] (getAvailableTracksFallback [⟨"t1", "Song One"⟩])
      ≠ specAvailableTracks [] [] := by
  decide

/-- C2 (amended): for every NON-empty list of stored tracks and every setlist
(including the empty setlist), the available-tracks computation returns
exactly the stored tracks whose id does not occur among the setlist ids, in
the original relative order of the stored tracks; with an empty stored list it
delegates to the fallback instead. -/
theorem c2_availableTracks_complement (stored : List Track) (setlist : List Song)
    (fallback : List Song → List Track) (h : stored ≠ []) :
    availableTracks stored setlist fallback = specAvailableTracks stored setlist := by
  unfold availableTracks specAvailableTracks
  have hl : stored.length > 0 := List.length_pos.mpr h
  simp only [if_pos hl]
  apply List.filter_congr
  intro t _
  simp [List.contains]
  rw [← decide_not]
  exact decide_eq_decide.mpr (by push_neg; rfl)

/-- C2 witness: the amended statement evaluated on a concrete non-empty stored
list and a concrete setlist. -/
theorem c2_availableTracks_complement_witness :
    ([⟨"a", "A"⟩, ⟨"b", "B"⟩] : List Track) ≠ [] ∧
    availableTracks [⟨"a", "A"⟩, ⟨"b", "B"⟩] [⟨"b"⟩] (fun _ => [])
      = specAvailableTracks [⟨"a", "A"⟩, ⟨"b", "B"⟩] [⟨"b"⟩] :=
  ⟨by decide,
   c2_availableTracks_complement [⟨"a", "A"⟩, ⟨"b", "B"⟩] [⟨"b"⟩] (fun _ => [])
     (by decide)⟩

/-- A store error value as returned by the supabase client: a code and a message. -/
structure StoreError where
  code : String
  message : String
deriving DecidableEq

/-- Decides whether `pat` occurs as a contiguous run of `s`. -/
def hasInfixAux (pat : List Char) : List Char → Bool
  | [] => pat.isEmpty
  | c :: cs => pat.isPrefixOf (c :: cs) || hasInfixAux pat cs

/-- The `String.prototype.includes` test on strings. -/
def strIncludes (s pat : String) : Bool :=
  hasInfixAux pat.toList s.toList

/-- The permission-denied test of `saveArtistToDatabase` (part_000 line 92):
code 42501 or a message containing the words "permission denied". -/
def isPermissionDenied (e : StoreError) : Bool :=
  e.code == "42501" || strIncludes e.message "permission denied"

/-- The columns of an artists row that `saveArtistToDatabase` reads
(part_000 line 22); `updated_at` is milliseconds since the epoch, read as
epoch 0 when absent. -/
structure ArtistRow where
  id : String
  updated_at : Option Nat
  stored_tracks : Option (List Track)
  spotify_id : Option String
  upcoming_shows : Option Nat
deriving DecidableEq

/-- The dynamically shaped artist object passed to `saveArtistToDatabase`.
`genresIsArray` records whether the `genres` field is an array (line 65). -/
structure ArtistInput where
  id : Option String
  name : String
  image : Option String
  image_url : Option String
  genresIsArray : Bool
  genres : List String
  popularity : Option Nat
  upcomingShows : Option Nat
  upcoming_shows : Option Nat
  spotify_id : Option String
  stored_tracks : Option (List Track)
deriving DecidableEq

/-- The prepared `artistData` record (part_000 lines 61-76). -/
structure ArtistData where
  id : String
  name : String
  image_url : Option String
  genres : List String
  popularity : Nat
  upcoming_shows : Nat
  spotify_id : Option String
  updated_at : Nat
  stored_tracks : Option (List Track)
deriving DecidableEq

/-- Preparation of the artist upsert payload (part_000 lines 61-76); `now` is
the current time in milliseconds.  The JSON round-trip on `stored_tracks` is
the identity on a well-typed track list. -/
def prepareArtistData (artist : ArtistInput) (now : Nat) : ArtistData :=
  { id := artist.id.getD ""
  , name := artist.name
  , image_url := jsOrStr artist.image artist.image_url
  , genres := if artist.genresIsArray then artist.genres else []
  , popularity := artist.popularity.getD 0
  , upcoming_shows := jsOrNat artist.upcomingShows artist.upcoming_shows
  , spotify_id := if jsTruthy artist.spotify_id then artist.spotify_id else none
  , updated_at := now
  , stored_tracks := artist.stored_tracks }

/-- The `needsUpdate` staleness test of `saveArtistToDatabase` (part_000
lines 40-44), with the floating-point day quotient replaced by the
equivalent exact millisecond comparison. -/
def artistNeedsUpdate (artist : ArtistInput) (existing : ArtistRow) (now : Nat) : Bool :=
  decide ((now : Int) - ((existing.updated_at.getD 0 : Nat) : Int) > 7 * 86400000)
  || existing.stored_tracks.isNone
  || (jsTruthy artist.spotify_id && !jsTruthy existing.spotify_id)
  || (natTruthy artist.upcoming_shows &&
        decide (artist.upcoming_shows.getD 0 > existing.upcoming_shows.getD 0))

/-- The response of a supabase write that was `.select()`-ed: the returned
rows and an optional error value. -/
structure StoreResponse (ρ : Type) where
  data : List ρ
  error : Option StoreError
deriving DecidableEq

/-- The value returned by `saveArtistToDatabase`, tagged by its provenance:
`invalid` is the null returned for an id-less input, `existingRow` the fresh
row from the staleness check, `savedRow` a row returned by the store write,
`prepared` the in-memory `artistData` fallback, `original` the untouched
input returned by the outermost catch. -/
inductive ArtistSaveResult where
  | invalid
  | existingRow (r : ArtistRow)
  | savedRow (r : ArtistRow)
  | prepared (d : ArtistData)
  | original (a : ArtistInput)
deriving DecidableEq

/-- Observable store interactions of one `saveArtistToDatabase` call:
whether the upsert and the insert-only retry were attempted, and the
spotify id passed to the fire-and-forget `fetchAndStoreArtistTracks`
trigger, when it fired. -/
structure ArtistSaveEffects where
  didUpsert : Bool
  didInsert : Bool
  catalogFetchTriggered : Option String
deriving DecidableEq

/-- The write phase of `saveArtistToDatabase` (part_000 lines 60-128): the
upsert, the insert-only retry gated on a permission-denied error, and the
background catalog-population trigger on upsert success. -/
def saveArtistUpsert (artist : ArtistInput) (now : Nat)
    (upsertRes insertRes : Except Unit (StoreResponse ArtistRow)) :
    ArtistSaveResult × ArtistSaveEffects :=
  let artistData := prepareArtistData artist now
  match upsertRes with
  | .error _ => (.prepared artistData, ⟨true, false, none⟩)
  | .ok resp =>
    match resp.error with
    | some e =>
      if isPermissionDenied e then
        match insertRes with
        | .error _ => (.prepared artistData, ⟨true, true, none⟩)
        | .ok iresp =>
          match iresp.error with
          | some _ => (.prepared artistData, ⟨true, true, none⟩)
          | none =>
            match iresp.data.head? with
            | some r => (.savedRow r, ⟨true, true, none⟩)
            | none => (.prepared artistData, ⟨true, true, none⟩)
      else
        (.prepared artistData, ⟨true, false, none⟩)
    | none =>
      match resp.data.head? with
      | some r =>
        let trigger :=
          if r.stored_tracks.isNone && artistData.spotify_id.isSome then
            artistData.spotify_id
          else none
        (.savedRow r, ⟨true, false, trigger⟩)
      | none =>
        let trigger :=
          if artistData.stored_tracks.isNone && artistData.spotify_id.isSome then
            artistData.spotify_id
          else none
        (.prepared artistData, ⟨true, false, trigger⟩)

/-- The `saveArtistToDatabase` function of part_000 (lines 9-133).
`checkRes` is the outcome of the existence lookup (an `Except.error` is an
exception caught at line 55; an error value from the store arrives as
`.ok none` and the code continues either way); `upsertRes` and `insertRes`
are the outcomes of the upsert and of the insert-only retry. -/
def saveArtistToDatabase (artist : ArtistInput) (now : Nat)
    (checkRes : Except Unit (Option ArtistRow))
    (upsertRes insertRes : Except Unit (StoreResponse ArtistRow)) :
    ArtistSaveResult × ArtistSaveEffects :=
  if !jsTruthy artist.id then (.invalid, ⟨false, false, none⟩)
  else
    match checkRes with
    | .ok (some existing) =>
      if !artistNeedsUpdate artist existing now then
        (.existingRow existing, ⟨false, false, none⟩)
      else
        saveArtistUpsert artist now upsertRes insertRes
    | _ => saveArtistUpsert artist now upsertRes insertRes

/-- The columns of a shows row that `saveShowToDatabase` reads
(src/lib/api/database/shows.ts line 21). -/
structure ShowRow where
  id : String
  updated_at : Option Nat
deriving DecidableEq

/-- The dynamically shaped show object passed to `saveShowToDatabase`. -/
structure ShowInput where
  id : Option String
  name : String
  artist_id : Option String
  venue_id : Option String
  date : Option String
  image_url : Option String
  imageUrl : Option String
  image : Option String
  ticket_url : Option String
  ticketUrl : Option String
  genreIdsIsArray : Bool
  genre_ids : List String
deriving DecidableEq

/-- The prepared `showData` record (shows.ts lines 55-65). -/
structure ShowData where
  id : String
  name : String
  artist_id : Option String
  venue_id : Option String
  date : Option String
  image_url : Option String
  ticket_url : Option String
  genre_ids : List String
  updated_at : Nat
deriving DecidableEq

/-- Preparation of the show upsert payload (shows.ts lines 55-65); `isoDate`
is the already-evaluated value of `show.date && new Date(show.date).toISOString()`. -/
def prepareShowData (sh : ShowInput) (now : Nat) (isoDate : Option String) : ShowData :=
  { id := sh.id.getD ""
  , name := sh.name
  , artist_id := sh.artist_id
  , venue_id := sh.venue_id
  , date := isoDate
  , image_url := jsOrStr sh.image_url (jsOrStr sh.imageUrl sh.image)
  , ticket_url := jsOrStr sh.ticket_url sh.ticketUrl
  , genre_ids := if sh.genreIdsIsArray then sh.genre_ids else []
  , updated_at := now }

/-- The value returned by `saveShowToDatabase`, tagged by provenance exactly
as for artists. -/
inductive ShowSaveResult where
  | invalid
  | existingRow (r : ShowRow)
  | savedRow (r : ShowRow)
  | prepared (d : ShowData)
  | original (s : ShowInput)
deriving DecidableEq

/-- Observable store interactions of one `saveShowToDatabase` call. -/
structure ShowSaveEffects where
  didUpsert : Bool
  didInsert : Bool
deriving DecidableEq

/-- The write phase of `saveShowToDatabase` (shows.ts lines 67-101).  The
insert-only retry at lines 82-85 runs for EVERY upsert error: the
permission test at line 75 only selects the log message. -/
def saveShowUpsert (showData : ShowData)
    (upsertRes insertRes : Except Unit (StoreResponse ShowRow)) :
    ShowSaveResult × ShowSaveEffects :=
  match upsertRes with
  | .error _ => (.prepared showData, ⟨true, false⟩)
  | .ok resp =>
    match resp.error with
    | some _ =>
      match insertRes with
      | .error _ => (.prepared showData, ⟨true, true⟩)
      | .ok iresp =>
        match iresp.error with
        | some _ => (.prepared showData, ⟨true, true⟩)
        | none =>
          match iresp.data.head? with
          | some r => (.savedRow r, ⟨true, true⟩)
          | none => (.prepared showData, ⟨true, true⟩)
    | none =>
      match resp.data.head? with
      | some r => (.savedRow r, ⟨true, false⟩)
      | none => (.prepared showData, ⟨true, false⟩)

/-- The `saveShowToDatabase` function of src/lib/api/database/shows.ts
(lines 8-106).  `dateConv` is the outcome of
`new Date(show.date).toISOString()` for a truthy date: an `Except.error`
is the RangeError of `toISOString` on an unparseable date, which escapes
to the outermost catch and returns the original input. -/
def saveShowToDatabase (sh : ShowInput) (now : Nat)
    (checkRes : Except Unit (Option ShowRow))
    (dateConv : Except Unit String)
    (upsertRes insertRes : Except Unit (StoreResponse ShowRow)) :
    ShowSaveResult × ShowSaveEffects :=
  if !jsTruthy sh.id then (.invalid, ⟨false, false⟩)
  else
    let fresh : Option ShowRow :=
      match checkRes with
      | .ok (some dbShow) =>
        if (now : Int) - ((dbShow.updated_at.getD 0 : Nat) : Int) < 24 * 3600000 then
          some dbShow
        else none
      | _ => none
    match fresh with
    | some dbShow => (.existingRow dbShow, ⟨false, false⟩)
    | none =>
      if jsTruthy sh.date then
        match dateConv with
        | .error _ => (.original sh, ⟨false, false⟩)
        | .ok iso => saveShowUpsert (prepareShowData sh now (some iso)) upsertRes insertRes
      else
        saveShowUpsert (prepareShowData sh now none) upsertRes insertRes

/-- The result object of `getArtistAllTracks`: a `tracks` field that may
itself be missing. -/
structure TracksData where
  tracks : Option (List Track)
deriving DecidableEq

/-- Observable effects of one `fetchAndStoreArtistTracks` call: whether the
external spotify fetch was reached, and the snapshot passed to the store
write when one was attempted. -/
structure CatalogEffects where
  externalFetched : Bool
  writeAttempt : Option (List Track)
deriving DecidableEq

/-- The fetch-and-store phase of `fetchAndStoreArtistTracks` (part_000
lines 150-182), reached when no non-empty stored snapshot exists. -/
def fetchPhase (fetchRes : Except Unit (Option TracksData))
    (writeRes : Except Unit Unit) : Option (List Track) × CatalogEffects :=
  match fetchRes with
  | .error _ => (none, ⟨true, none⟩)
  | .ok none => (none, ⟨true, none⟩)
  | .ok (some td) =>
    match td.tracks with
    | none => (none, ⟨true, none⟩)
    | some ts =>
      if ts.length = 0 then (none, ⟨true, none⟩)
      else
        match writeRes with
        | .error _ => (some ts, ⟨true, some ts⟩)
        | .ok _ => (some ts, ⟨true, some ts⟩)

/-- The `fetchAndStoreArtistTracks` function of part_000 (lines 138-187).
`storedRes` is the outcome of `getStoredTracksForArtist`, `fetchRes` the
outcome of the spotify fetch, `writeRes` the outcome of the snapshot write;
a thrown `storedRes` or `fetchRes` lands in the outer catch (line 183)
returning null, a thrown `writeRes` in the inner catch (line 179) which
still returns the fetched tracks. -/
def fetchAndStoreArtistTracks
    (storedRes : Except Unit (Option (List Track)))
    (fetchRes : Except Unit (Option TracksData))
    (writeRes : Except Unit Unit) : Option (List Track) × CatalogEffects :=
  match storedRes with
  | .error _ => (none, ⟨false, none⟩)
  | .ok existingTracks =>
    match existingTracks with
    | some l =>
      if l.length > 0 then (some l, ⟨false, none⟩)
      else fetchPhase fetchRes writeRes
    | none => fetchPhase fetchRes writeRes

/-- The show fields read by the document-metadata effect of `useShowDetail`
(src/hooks/use-show-detail.ts lines 25-70); `artistName` flattens
`show.artist?.name` (an absent artist and an absent name are both `none`),
and likewise for the venue fields. -/
structure ShowView where
  artistName : Option String
  venueName : Option String
  venueCity : Option String
  venueState : Option String
  date : Option String
deriving DecidableEq

/-- The document title and description derived by `useShowDetail`. -/
structure DocumentMetadata where
  title : String
  description : String
deriving DecidableEq

/-- The `venueLocation` string of the metadata derivation (line 32). -/
def venueLocationOf (sh : ShowView) : String :=
  let venueCity := jsDefault sh.venueCity ""
  let venueState := jsDefault sh.venueState ""
  if venueCity != "" && venueState != "" then venueCity ++ ", " ++ venueState
  else if venueCity != "" then venueCity
  else if venueState != "" then venueState
  else "Location"

/-- The document-metadata derivation of `useShowDetail` (lines 25-70).
`dateFormat d` is the combined outcome of `new Date(d)` validity and
`toLocaleDateString` for a truthy date string: `none` when the parsed date
is invalid or formatting threw (the inner catch at line 50 leaves the
"TBD" placeholder in place), `some s` for a formatted date. -/
def deriveDocumentMetadata (sh : ShowView) (dateFormat : String → Option String) :
    DocumentMetadata :=
  let artistName := jsDefault sh.artistName "Artist"
  let venueName := jsDefault sh.venueName "Venue"
  let venueLocation := venueLocationOf sh
  let formattedDate :=
    if jsTruthy sh.date then (dateFormat (sh.date.getD "")).getD "TBD" else "TBD"
  { title := "TheSet | " ++ artistName ++ " at " ++ venueName ++ " in "
      ++ venueLocation ++ " | " ++ formattedDate
  , description := "Vote on " ++ artistName ++ "\x27s setlist for their show at "
      ++ venueName ++ " in " ++ venueLocation ++ " on " ++ formattedDate
      ++ ". Influence what songs they\x27ll play live!" }

theorem saveArtistUpsert_didUpsert (artist : ArtistInput) (now : Nat)
    (aur air : Except Unit (StoreResponse ArtistRow)) :
    (saveArtistUpsert artist now aur air).2.didUpsert = true := by
  unfold saveArtistUpsert
  cases aur with
  | error e => rfl
  | ok resp =>
    cases hre : resp.error with
    | some e =>
      by_cases hp : isPermissionDenied e
      · cases air with
        | error e2 => simp [hre, hp]
        | ok iresp =>
          cases hie : iresp.error with
          | some e2 => simp [hre, hp, hie]
          | none =>
            cases hd : iresp.data.head? with
            | some r => simp [hre, hp, hie, hd]
            | none => simp [hre, hp, hie, hd]
      · simp [hre, hp]
    | none =>
      cases hd : resp.data.head? with
      | some r => simp [hre, hd]
      | none => simp [hre, hd]

theorem saveArtistUpsert_cases (artist : ArtistInput) (now : Nat)
    (aur air : Except Unit (StoreResponse ArtistRow)) :
    (∃ r, (saveArtistUpsert artist now aur air).1 = .savedRow r) ∨
    (saveArtistUpsert artist now aur air).1 = .prepared (prepareArtistData artist now) := by
  unfold saveArtistUpsert
  cases aur with
  | error e => right; rfl
  | ok resp =>
    cases hre : resp.error with
    | some e =>
      by_cases hp : isPermissionDenied e
      · cases air with
        | error e2 => right; simp [hre, hp]
        | ok iresp =>
          cases hie : iresp.error with
          | some e2 => right; simp [hre, hp, hie]
          | none =>
            cases hd : iresp.data.head? with
            | some r => left; exact ⟨r, by simp [hre, hp, hie, hd]⟩
            | none => right; simp [hre, hp, hie, hd]
      · right; simp [hre, hp]
    | none =>
      cases hd : resp.data.head? with
      | some r => left; exact ⟨r, by simp [hre, hd]⟩
      | none => right; simp [hre, hd]

theorem saveShowUpsert_cases (d : ShowData)
    (sur sir : Except Unit (StoreResponse ShowRow)) :
    (∃ r, (saveShowUpsert d sur sir).1 = .savedRow r) ∨
    (saveShowUpsert d sur sir).1 = .prepared d := by
  unfold saveShowUpsert
  cases sur with
  | error e => right; rfl
  | ok resp =>
    cases hre : resp.error with
    | some e =>
      cases sir with
      | error e2 => right; simp [hre]
      | ok iresp =>
        cases hie : iresp.error with
        | some e2 => right; simp [hre, hie]
        | none =>
          cases hd : iresp.data.head? with
          | some r => left; exact ⟨r, by simp [hre, hie, hd]⟩
          | none => right; simp [hre, hie, hd]
    | none =>
      cases hd : resp.data.head? with
      | some r => left; exact ⟨r, by simp [hre, hd]⟩
      | none => right; simp [hre, hd]

theorem fetchPhase_no_tracks (fetchRes : Except Unit (Option TracksData))
    (writeRes : Except Unit Unit)
    (hf : ∀ td ts, fetchRes = Except.ok (some td) → td.tracks = some ts → ts = []) :
    fetchPhase fetchRes writeRes = (none, ⟨true, none⟩) := by
  unfold fetchPhase
  cases fetchRes with
  | error e => rfl
  | ok v =>
    cases v with
    | none => rfl
    | some td =>
      cases ht : td.tracks with
      | none => simp [ht]
      | some ts =>
        have hempty : ts = [] := hf td ts rfl ht
        subst hempty
        simp [ht]

theorem fetchAndStore_writeAttempt_nonempty
    (sr : Except Unit (Option (List Track))) (fr : Except Unit (Option TracksData))
    (wr : Except Unit Unit) (ts : List Track)
    (h : (fetchAndStoreArtistTracks sr fr wr).2.writeAttempt = some ts) : ts ≠ [] := by
  unfold fetchAndStoreArtistTracks at h
  have hphase : ∀ (fr2 : Except Unit (Option TracksData)) (wr2 : Except Unit Unit),
      (fetchPhase fr2 wr2).2.writeAttempt = some ts → ts ≠ [] := by
    intro fr2 wr2 hp
    unfold fetchPhase at hp
    cases fr2 with
    | error e => simp at hp
    | ok v =>
      cases v with
      | none => simp at hp
      | some td =>
        cases ht : td.tracks with
        | none => simp [ht] at hp
        | some ts2 =>
          by_cases hl : ts2.length = 0
          · simp [ht, hl] at hp
          · cases wr2 with
            | error e => simp [ht, hl] at hp; subst hp; exact fun hc => hl (by simp [hc])
            | ok u => simp [ht, hl] at hp; subst hp; exact fun hc => hl (by simp [hc])
  cases sr with
  | error e => simp at h
  | ok v =>
    cases v with
    | none => exact hphase fr wr h
    | some l =>
      by_cases hl : l.length > 0
      · simp [hl] at h
      · simp [hl] at h; exact hphase fr wr h

/-- C1 fails on the show writer: an upsert failure that is NOT
permission-denied (here code XX000) still triggers the insert-only retry in
`saveShowToDatabase` — the permission test at shows.ts line 75 only selects
the log message, contradicting the code comment above the retry, which
speaks only of a permission error.  The artist writer does
gate its retry on the permission test (part_000 line 92). -/
theorem c1_show_insert_retry_on_any_error :
    isPermissionDenied ⟨"XX000", "internal error"⟩ = false ∧
    saveShowToDatabase
      ⟨some "s1", "Show One", some "a1", some "v1", none, none, none, none,
        none, none, true, []⟩ 1000
      (Except.ok none) (Except.ok "")
      (Except.ok ⟨[], some ⟨"XX000", "internal error"⟩⟩)
      (Except.ok ⟨[], some ⟨"XX000", "internal error"⟩⟩)
      = (.prepared (prepareShowData
          ⟨some "s1", "Show One", some "a1", some "v1", none, none, none, none,
            none, none, true, []⟩ 1000 none),
         ⟨true, true⟩) := by
  exact ⟨by decide, by decide⟩

/-- C3: when the store already holds a non-empty track snapshot, the cache
returns that snapshot and the external catalog source is never invoked;
conversely, whenever the external fetch is reached the store had not
returned a non-empty snapshot. -/
theorem c3_dedup_guard (stored : List Track)
    (fetchRes : Except Unit (Option TracksData)) (writeRes : Except Unit Unit)
    (h : stored ≠ []) :
    fetchAndStoreArtistTracks (Except.ok (some stored)) fetchRes writeRes
      = (some stored, ⟨false, none⟩) ∧
    ∀ (storedRes : Except Unit (Option (List Track))),
      (fetchAndStoreArtistTracks storedRes fetchRes writeRes).2.externalFetched = true →
      ∀ l, storedRes = Except.ok (some l) → l = [] := by
  constructor
  · have hl : stored.length > 0 := List.length_pos.mpr h
    unfold fetchAndStoreArtistTracks
    simp [hl]
  · intro storedRes hf l heq
    subst heq
    by_cases hl : l = []
    · exact hl
    · exfalso
      have hlen : l.length > 0 := List.length_pos.mpr hl
      unfold fetchAndStoreArtistTracks at hf
      simp [hlen] at hf

/-- C3 witness: the guard evaluated on a concrete one-track snapshot. -/
theorem c3_dedup_guard_witness :
    ([⟨"a", "A"⟩] : List Track) ≠ [] ∧
    (fetchAndStoreArtistTracks (Except.ok (some [⟨"a", "A"⟩]))
        (Except.ok none) (Except.ok ())
      = (some [⟨"a", "A"⟩], ⟨false, none⟩) ∧
    ∀ (storedRes : Except Unit (Option (List Track))),
      (fetchAndStoreArtistTracks storedRes (Except.ok none) (Except.ok ())).2.externalFetched
        = true →
      ∀ l, storedRes = Except.ok (some l) → l = []) :=
  ⟨by decide, c3_dedup_guard [⟨"a", "A"⟩] (Except.ok none) (Except.ok ()) (by decide)⟩

/-- C6: when the external fetch yields no tracks (a throw, a null result, a
missing tracks field or an empty list) and the store had no non-empty
snapshot, the cache returns null and attempts no store write; moreover no
call ever attempts to write an empty snapshot. -/
theorem c6_no_tracks_no_write
    (storedRes : Except Unit (Option (List Track)))
    (fetchRes : Except Unit (Option TracksData)) (writeRes : Except Unit Unit)
    (hs : ∀ l, storedRes = Except.ok (some l) → l = [])
    (hf : ∀ td ts, fetchRes = Except.ok (some td) → td.tracks = some ts → ts = []) :
    ((fetchAndStoreArtistTracks storedRes fetchRes writeRes).1 = none ∧
     (fetchAndStoreArtistTracks storedRes fetchRes writeRes).2.writeAttempt = none) ∧
    ∀ (sr : Except Unit (Option (List Track))) (fr : Except Unit (Option TracksData))
      (wr : Except Unit Unit) (ts : List Track),
      (fetchAndStoreArtistTracks sr fr wr).2.writeAttempt = some ts → ts ≠ [] := by
  constructor
  · have hphase := fetchPhase_no_tracks fetchRes writeRes hf
    unfold fetchAndStoreArtistTracks
    cases storedRes with
    | error e => exact ⟨rfl, rfl⟩
    | ok v =>
      cases v with
      | none => simp [hphase]
      | some l =>
        have hempty : l = [] := hs l rfl
        subst hempty
        simp [hphase]
  · exact fetchAndStore_writeAttempt_nonempty

/-- C6 witness: a fetch that finds an artist but an empty track list. -/
theorem c6_no_tracks_no_write_witness :
    ((fetchAndStoreArtistTracks (Except.ok none)
        (Except.ok (some ⟨some []⟩)) (Except.ok ())).1 = none ∧
     (fetchAndStoreArtistTracks (Except.ok none)
        (Except.ok (some ⟨some []⟩)) (Except.ok ())).2.writeAttempt = none) ∧
    ∀ (sr : Except Unit (Option (List Track))) (fr : Except Unit (Option TracksData))
      (wr : Except Unit Unit) (ts : List Track),
      (fetchAndStoreArtistTracks sr fr wr).2.writeAttempt = some ts → ts ≠ [] :=
  c6_no_tracks_no_write (Except.ok none) (Except.ok (some ⟨some []⟩)) (Except.ok ())
    (by intro l hl; simp at hl) (by intro td ts h1 h2; simp at h1; rw [← h1] at h2; simpa using h2.symm)

/-- C7: when the store had no non-empty snapshot, the external fetch
succeeds with a non-empty track list and the snapshot write fails, the
freshly fetched tracks are still returned (neither null nor an error). -/
theorem c7_store_failure_keeps_tracks
    (storedRes : Except Unit (Option (List Track))) (td : TracksData) (ts : List Track)
    (hs : storedRes = Except.ok none ∨ storedRes = Except.ok (some []))
    (ht : td.tracks = some ts) (hts : ts ≠ []) :
    (fetchAndStoreArtistTracks storedRes (Except.ok (some td)) (Except.error ())).1
      = some ts := by
  have hlen : ¬ ts.length = 0 := fun hc => hts (List.length_eq_zero.mp hc)
  have hphase : (fetchPhase (Except.ok (some td)) (Except.error ())).1 = some ts := by
    unfold fetchPhase
    simp [ht, hlen]
  cases hs with
  | inl h => subst h; unfold fetchAndStoreArtistTracks; simpa using hphase
  | inr h => subst h; unfold fetchAndStoreArtistTracks; simpa using hphase

/-- C7 witness: a one-track fetch whose store write throws. -/
theorem c7_store_failure_keeps_tracks_witness :
    (fetchAndStoreArtistTracks (Except.ok none)
      (Except.ok (some ⟨some [⟨"t", "T"⟩]⟩)) (Except.error ())).1 = some [⟨"t", "T"⟩] :=
  c7_store_failure_keeps_tracks (Except.ok none) ⟨some [⟨"t", "T"⟩]⟩ [⟨"t", "T"⟩]
    (Or.inl rfl) rfl (by decide)

theorem saveArtistToDatabase_total (artist : ArtistInput) (now : Nat)
    (acr : Except Unit (Option ArtistRow))
    (aur air : Except Unit (StoreResponse ArtistRow))
    (ha : jsTruthy artist.id = true) :
    (∃ r, (saveArtistToDatabase artist now acr aur air).1 = .existingRow r) ∨
    (∃ r, (saveArtistToDatabase artist now acr aur air).1 = .savedRow r) ∨
    (saveArtistToDatabase artist now acr aur air).1
      = .prepared (prepareArtistData artist now) := by
  unfold saveArtistToDatabase
  simp only [ha, Bool.not_true, Bool.false_eq_true, if_false]
  cases acr with
  | error e =>
    rcases saveArtistUpsert_cases artist now aur air with ⟨r, hr⟩ | hp
    · exact Or.inr (Or.inl ⟨r, hr⟩)
    · exact Or.inr (Or.inr hp)
  | ok v =>
    cases v with
    | none =>
      rcases saveArtistUpsert_cases artist now aur air with ⟨r, hr⟩ | hp
      · exact Or.inr (Or.inl ⟨r, hr⟩)
      · exact Or.inr (Or.inr hp)
    | some ex =>
      by_cases hnu : artistNeedsUpdate artist ex now = true
      · simp only [hnu, Bool.not_true, Bool.false_eq_true, if_false]
        rcases saveArtistUpsert_cases artist now aur air with ⟨r, hr⟩ | hp
        · exact Or.inr (Or.inl ⟨r, hr⟩)
        · exact Or.inr (Or.inr hp)
      · rw [Bool.not_eq_true] at hnu
        simp only [hnu, Bool.not_false, if_true]
        exact Or.inl ⟨ex, rfl⟩

theorem saveShowToDatabase_total (sh : ShowInput) (now : Nat)
    (scr : Except Unit (Option ShowRow)) (dc : Except Unit String)
    (sur sir : Except Unit (StoreResponse ShowRow))
    (hs : jsTruthy sh.id = true) :
    (∃ r, (saveShowToDatabase sh now scr dc sur sir).1 = .existingRow r) ∨
    (∃ r, (saveShowToDatabase sh now scr dc sur sir).1 = .savedRow r) ∨
    (∃ d, (saveShowToDatabase sh now scr dc sur sir).1 = .prepared d) ∨
    (saveShowToDatabase sh now scr dc sur sir).1 = .original sh := by
  unfold saveShowToDatabase
  simp only [hs, Bool.not_true, Bool.false_eq_true, if_false]
  have hwrite : ∀ (d : ShowData),
      (∃ r, (saveShowUpsert d sur sir).1 = ShowSaveResult.savedRow r) ∨
      (∃ d2, (saveShowUpsert d sur sir).1 = ShowSaveResult.prepared d2) := by
    intro d
    rcases saveShowUpsert_cases d sur sir with ⟨r, hr⟩ | hp
    · exact Or.inl ⟨r, hr⟩
    · exact Or.inr ⟨d, hp⟩
  have hbranch : ∀ (d : ShowData),
      (∃ r, (saveShowUpsert d sur sir).1 = ShowSaveResult.existingRow r) ∨
      (∃ r, (saveShowUpsert d sur sir).1 = ShowSaveResult.savedRow r) ∨
      (∃ d2, (saveShowUpsert d sur sir).1 = ShowSaveResult.prepared d2) ∨
      (saveShowUpsert d sur sir).1 = ShowSaveResult.original sh := by
    intro d
    rcases hwrite d with ⟨r, hr⟩ | ⟨d2, hp⟩
    · exact Or.inr (Or.inl ⟨r, hr⟩)
    · exact Or.inr (Or.inr (Or.inl ⟨d2, hp⟩))
  cases scr with
  | error e =>
    by_cases hd : jsTruthy sh.date = true
    · simp only [hd, if_true]
      cases dc with
      | error e2 => exact Or.inr (Or.inr (Or.inr rfl))
      | ok iso => exact hbranch _
    · rw [Bool.not_eq_true] at hd
      simp only [hd, Bool.false_eq_true, if_false]
      exact hbranch _
  | ok v =>
    cases v with
    | none =>
      by_cases hd : jsTruthy sh.date = true
      · simp only [hd, if_true]
        cases dc with
        | error e2 => exact Or.inr (Or.inr (Or.inr rfl))
        | ok iso => exact hbranch _
      · rw [Bool.not_eq_true] at hd
        simp only [hd, Bool.false_eq_true, if_false]
        exact hbranch _
    | some dbShow =>
      by_cases hfresh :
          (now : Int) - ((dbShow.updated_at.getD 0 : Nat) : Int) < 24 * 3600000
      · simp only [hfresh, if_true]
        exact Or.inl ⟨dbShow, rfl⟩
      · simp only [hfresh, if_false]
        by_cases hd : jsTruthy sh.date = true
        · simp only [hd, if_true]
          cases dc with
          | error e2 => exact Or.inr (Or.inr (Or.inr rfl))
          | ok iso => exact hbranch _
        · rw [Bool.not_eq_true] at hd
          simp only [hd, Bool.false_eq_true, if_false]
          exact hbranch _

/-- C4: a show row updated less than 24 hours ago is returned as-is with no
write attempted; an artist row updated less than 7 days ago that carries a
stored track snapshot and is offered no new data (no new spotify id, no
larger upcoming-show count) is returned as-is with no write attempted; an
existing artist row without a stored track snapshot is rewritten (the
upsert is attempted) regardless of its age. -/
theorem c4_freshness_policy (artist : ArtistInput) (sh : ShowInput) (now : Nat)
    (ex : ArtistRow) (dbShow : ShowRow)
    (aur air : Except Unit (StoreResponse ArtistRow))
    (dc : Except Unit String) (sur sir : Except Unit (StoreResponse ShowRow))
    (haid : jsTruthy artist.id = true) (hsid : jsTruthy sh.id = true) :
    ((now : Int) - ((dbShow.updated_at.getD 0 : Nat) : Int) < 24 * 3600000 →
      saveShowToDatabase sh now (Except.ok (some dbShow)) dc sur sir
        = (.existingRow dbShow, ⟨false, false⟩)) ∧
    ((now : Int) - ((ex.updated_at.getD 0 : Nat) : Int) < 7 * 86400000 →
      ex.stored_tracks.isSome = true →
      (jsTruthy artist.spotify_id = true → jsTruthy ex.spotify_id = true) →
      artist.upcoming_shows.getD 0 ≤ ex.upcoming_shows.getD 0 →
      saveArtistToDatabase artist now (Except.ok (some ex)) aur air
        = (.existingRow ex, ⟨false, false, none⟩)) ∧
    (ex.stored_tracks = none →
      (saveArtistToDatabase artist now (Except.ok (some ex)) aur air).2.didUpsert
        = true) := by
  refine ⟨?_, ?_, ?_⟩
  · intro h1
    have h1n : (now : Int) - ((dbShow.updated_at.getD 0 : Nat) : Int) < 86400000 := by
      omega
    unfold saveShowToDatabase
    simp [hsid, h1n]
  · intro h1 h2 h3 h4
    have hnu : artistNeedsUpdate artist ex now = false := by
      unfold artistNeedsUpdate
      have ha : decide ((now : Int) - ((ex.updated_at.getD 0 : Nat) : Int)
          > 7 * 86400000) = false :=
        decide_eq_false (not_lt.mpr h1.le)
      have hb : ex.stored_tracks.isNone = false := by
        cases hst : ex.stored_tracks with
        | none => rw [hst] at h2; simp at h2
        | some l => rfl
      have hd : decide (artist.upcoming_shows.getD 0 > ex.upcoming_shows.getD 0)
          = false :=
        decide_eq_false (not_lt.mpr h4)
      rw [ha, hb, hd]
      cases hsp : jsTruthy artist.spotify_id with
      | false => simp
      | true => simp [h3 hsp]
    unfold saveArtistToDatabase
    simp [haid, hnu]
  · intro h1
    have hnu : artistNeedsUpdate artist ex now = true := by
      unfold artistNeedsUpdate
      rw [h1]
      simp
    unfold saveArtistToDatabase
    simp [haid, hnu]
    exact saveArtistUpsert_didUpsert artist now aur air

/-- C4 witness: the three freshness clauses evaluated on concrete fresh rows
(artist updated half a second ago with a stored snapshot, show updated half
a second ago) and on a concrete artist row missing its snapshot. -/
theorem c4_freshness_policy_witness :
    jsTruthy (some "a1") = true ∧ jsTruthy (some "s1") = true ∧
    (((1000 : Int) - ((500 : Nat) : Int) < 24 * 3600000 →
      saveShowToDatabase
        ⟨some "s1", "Show One", some "a1", some "v1", none, none, none, none,
          none, none, true, []⟩ 1000
        (Except.ok (some ⟨"s1", some 500⟩)) (Except.ok "")
        (Except.ok ⟨[], none⟩) (Except.ok ⟨[], none⟩)
        = (.existingRow ⟨"s1", some 500⟩, ⟨false, false⟩)) ∧
    ((1000 : Int) - ((500 : Nat) : Int) < 7 * 86400000 →
      (some [(⟨"t", "T"⟩ : Track)]).isSome = true →
      (jsTruthy none = true → jsTruthy none = true) →
      (none : Option Nat).getD 0 ≤ (none : Option Nat).getD 0 →
      saveArtistToDatabase
        ⟨some "a1", "Artist One", none, none, true, [], none, none, none,
          none, none⟩ 1000
        (Except.ok (some ⟨"a1", some 500, some [⟨"t", "T"⟩], none, none⟩))
        (Except.ok ⟨[], none⟩) (Except.ok ⟨[], none⟩)
        = (.existingRow ⟨"a1", some 500, some [⟨"t", "T"⟩], none, none⟩,
           ⟨false, false, none⟩)) ∧
    ((none : Option (List Track)) = none →
      (saveArtistToDatabase
        ⟨some "a1", "Artist One", none, none, true, [], none, none, none,
          none, none⟩ 1000
        (Except.ok (some ⟨"a1", some 500, none, none, none⟩))
        (Except.ok ⟨[], none⟩) (Except.ok ⟨[], none⟩)).2.didUpsert = true)) := by
  refine ⟨by decide, by decide, ?_, ?_, ?_⟩
  · exact (c4_freshness_policy
      ⟨some "a1", "Artist One", none, none, true, [], none, none, none, none, none⟩
      ⟨some "s1", "Show One", some "a1", some "v1", none, none, none, none,
        none, none, true, []⟩ 1000
      ⟨"a1", some 500, some [⟨"t", "T"⟩], none, none⟩ ⟨"s1", some 500⟩
      (Except.ok ⟨[], none⟩) (Except.ok ⟨[], none⟩) (Except.ok "")
      (Except.ok ⟨[], none⟩) (Except.ok ⟨[], none⟩)
      (by decide) (by decide)).1
  · exact (c4_freshness_policy
      ⟨some "a1", "Artist One", none, none, true, [], none, none, none, none, none⟩
      ⟨some "s1", "Show One", some "a1", some "v1", none, none, none, none,
        none, none, true, []⟩ 1000
      ⟨"a1", some 500, some [⟨"t", "T"⟩], none, none⟩ ⟨"s1", some 500⟩
      (Except.ok ⟨[], none⟩) (Except.ok ⟨[], none⟩) (Except.ok "")
      (Except.ok ⟨[], none⟩) (Except.ok ⟨[], none⟩)
      (by decide) (by decide)).2.1
  · exact (c4_freshness_policy
      ⟨some "a1", "Artist One", none, none, true, [], none, none, none, none, none⟩
      ⟨some "s1", "Show One", some "a1", some "v1", none, none, none, none,
        none, none, true, []⟩ 1000
      ⟨"a1", some 500, none, none, none⟩ ⟨"s1", some 500⟩
      (Except.ok ⟨[], none⟩) (Except.ok ⟨[], none⟩) (Except.ok "")
      (Except.ok ⟨[], none⟩) (Except.ok ⟨[], none⟩)
      (by decide) (by decide)).2.2

/-- C5: for every valid input and every behaviour of the store and of the
date conversion — including thrown exceptions at each awaited call — the two
save functions return a value rather than propagating an error: the fresh
existing row, a row returned by a store write, the prepared in-memory
record, or (for shows, when the date conversion throws) the original input
object. -/
theorem c5_never_propagates (artist : ArtistInput) (sh : ShowInput) (now : Nat)
    (acr : Except Unit (Option ArtistRow))
    (aur air : Except Unit (StoreResponse ArtistRow))
    (scr : Except Unit (Option ShowRow)) (dc : Except Unit String)
    (sur sir : Except Unit (StoreResponse ShowRow))
    (ha : jsTruthy artist.id = true) (hs : jsTruthy sh.id = true) :
    ((∃ r, (saveArtistToDatabase artist now acr aur air).1 = .existingRow r) ∨
     (∃ r, (saveArtistToDatabase artist now acr aur air).1 = .savedRow r) ∨
     (saveArtistToDatabase artist now acr aur air).1
       = .prepared (prepareArtistData artist now)) ∧
    ((∃ r, (saveShowToDatabase sh now scr dc sur sir).1 = .existingRow r) ∨
     (∃ r, (saveShowToDatabase sh now scr dc sur sir).1 = .savedRow r) ∨
     (∃ d, (saveShowToDatabase sh now scr dc sur sir).1 = .prepared d) ∨
     (saveShowToDatabase sh now scr dc sur sir).1 = .original sh) :=
  ⟨saveArtistToDatabase_total artist now acr aur air ha,
   saveShowToDatabase_total sh now scr dc sur sir hs⟩

/-- C5 witness: both save functions evaluated with every awaited call
throwing. -/
theorem c5_never_propagates_witness :
    jsTruthy (some "a1") = true ∧ jsTruthy (some "s1") = true ∧
    (((∃ r, (saveArtistToDatabase
        ⟨some "a1", "Artist One", none, none, true, [], none, none, none, none, none⟩
        1000 (Except.error ()) (Except.error ()) (Except.error ())).1
          = .existingRow r) ∨
     (∃ r, (saveArtistToDatabase
        ⟨some "a1", "Artist One", none, none, true, [], none, none, none, none, none⟩
        1000 (Except.error ()) (Except.error ()) (Except.error ())).1
          = .savedRow r) ∨
     (saveArtistToDatabase
        ⟨some "a1", "Artist One", none, none, true, [], none, none, none, none, none⟩
        1000 (Except.error ()) (Except.error ()) (Except.error ())).1
          = .prepared (prepareArtistData
              ⟨some "a1", "Artist One", none, none, true, [], none, none, none,
                none, none⟩ 1000)) ∧
    ((∃ r, (saveShowToDatabase
        ⟨some "s1", "Show One", some "a1", some "v1", none, none, none, none,
          none, none, true, []⟩
        1000 (Except.error ()) (Except.error ()) (Except.error ())
        (Except.error ())).1 = .existingRow r) ∨
     (∃ r, (saveShowToDatabase
        ⟨some "s1", "Show One", some "a1", some "v1", none, none, none, none,
          none, none, true, []⟩
        1000 (Except.error ()) (Except.error ()) (Except.error ())
        (Except.error ())).1 = .savedRow r) ∨
     (∃ d, (saveShowToDatabase
        ⟨some "s1", "Show One", some "a1", some "v1", none, none, none, none,
          none, none, true, []⟩
        1000 (Except.error ()) (Except.error ()) (Except.error ())
        (Except.error ())).1 = .prepared d) ∨
     (saveShowToDatabase
        ⟨some "s1", "Show One", some "a1", some "v1", none, none, none, none,
          none, none, true, []⟩
        1000 (Except.error ()) (Except.error ()) (Except.error ())
        (Except.error ())).1
          = .original ⟨some "s1", "Show One", some "a1", some "v1", none, none,
              none, none, none, none, true, []⟩)) :=
  ⟨by decide, by decide,
   c5_never_propagates
     ⟨some "a1", "Artist One", none, none, true, [], none, none, none, none, none⟩
     ⟨some "s1", "Show One", some "a1", some "v1", none, none, none, none,
       none, none, true, []⟩
     1000 (Except.error ()) (Except.error ()) (Except.error ())
     (Except.error ()) (Except.error ()) (Except.error ()) (Except.error ())
     (by decide) (by decide)⟩

/-- C8: when the artist upsert succeeds, the resulting record (the returned
row) carries no stored track catalog whose absence the code tests, and the
store returns the spotify id column as written (so the row id agrees with
the prepared record id), `saveArtistToDatabase` fires the background
catalog-population trigger with that spotify id and returns the saved row;
the returned value is by construction independent of the outcome of the
triggered background fetch, which is modelled separately as
`fetchAndStoreArtistTracks` and is total in all its oracle outcomes. -/
theorem c8_catalog_trigger (artist : ArtistInput) (now : Nat)
    (checkRes : Except Unit (Option ArtistRow))
    (air : Except Unit (StoreResponse ArtistRow))
    (resp : StoreResponse ArtistRow) (r : ArtistRow) (sid : String)
    (hid : jsTruthy artist.id = true)
    (hstale : ∀ ex, checkRes = Except.ok (some ex) →
      artistNeedsUpdate artist ex now = true)
    (herr : resp.error = none) (hdata : resp.data.head? = some r)
    (htracks : r.stored_tracks = none)
    (hsid : r.spotify_id = some sid)
    (hconsist : r.spotify_id = (prepareArtistData artist now).spotify_id) :
    saveArtistToDatabase artist now checkRes (Except.ok resp) air
      = (.savedRow r, ⟨true, false, some sid⟩) := by
  have hprep : (prepareArtistData artist now).spotify_id = some sid :=
    hconsist.symm.trans hsid
  have hupsert : saveArtistUpsert artist now (Except.ok resp) air
      = (.savedRow r, ⟨true, false, some sid⟩) := by
    unfold saveArtistUpsert
    simp [herr, hdata, htracks, hprep]
  unfold saveArtistToDatabase
  simp only [hid, Bool.not_true, Bool.false_eq_true, if_false]
  cases checkRes with
  | error e => exact hupsert
  | ok v =>
    cases v with
    | none => exact hupsert
    | some ex =>
      simp only [hstale ex rfl, Bool.not_true, Bool.false_eq_true, if_false]
      exact hupsert

/-- C8 witness: a stale artist with spotify id X123 whose upsert returns a
row without stored tracks; the trigger fires with X123. -/
theorem c8_catalog_trigger_witness :
    jsTruthy (some "a1") = true ∧
    (⟨[⟨"a1", some 0, none, some "X123", none⟩], none⟩
        : StoreResponse ArtistRow).error = none ∧
    saveArtistToDatabase
      ⟨some "a1", "Artist One", none, none, true, [], none, none, none,
        some "X123", none⟩ 0
      (Except.ok none)
      (Except.ok ⟨[⟨"a1", some 0, none, some "X123", none⟩], none⟩)
      (Except.ok ⟨[], none⟩)
      = (.savedRow ⟨"a1", some 0, none, some "X123", none⟩,
         ⟨true, false, some "X123"⟩) :=
  ⟨by decide, by decide,
   c8_catalog_trigger
     ⟨some "a1", "Artist One", none, none, true, [], none, none, none,
       some "X123", none⟩ 0
     (Except.ok none) (Except.ok ⟨[], none⟩)
     ⟨[⟨"a1", some 0, none, some "X123", none⟩], none⟩
     ⟨"a1", some 0, none, some "X123", none⟩ "X123"
     (by decide) (by intro ex hx; simp at hx) (by decide) (by decide)
     (by decide) (by decide) (by decide)⟩

/-- C9: for every loaded show whose date field is absent, the derived display
title and description use the literal placeholder TBD as the date, whatever
the date formatter would have done; the derivation is a total function, so it
never throws to the caller. -/
theorem c9_absent_date_tbd (sh : ShowView) (dateFormat : String → Option String)
    (h : sh.date = none) :
    deriveDocumentMetadata sh dateFormat
      = { title := "TheSet | " ++ jsDefault sh.artistName "Artist" ++ " at "
            ++ jsDefault sh.venueName "Venue" ++ " in " ++ venueLocationOf sh
            ++ " | " ++ "TBD"
        , description := "Vote on " ++ jsDefault sh.artistName "Artist"
            ++ "\x27s setlist for their show at " ++ jsDefault sh.venueName "Venue"
            ++ " in " ++ venueLocationOf sh ++ " on " ++ "TBD"
            ++ ". Influence what songs they\x27ll play live!" } := by
  unfold deriveDocumentMetadata
  simp [h, jsTruthy]

/-- C9 witness: the metadata derived for a concrete show without a date. -/
theorem c9_absent_date_tbd_witness :
    (⟨some "Artist A", some "Venue V", some "City", some "ST", none⟩
        : ShowView).date = none ∧
    deriveDocumentMetadata
      ⟨some "Artist A", some "Venue V", some "City", some "ST", none⟩
      (fun _ => none)
      = { title := "TheSet | "
            ++ jsDefault (some "Artist A") "Artist" ++ " at "
            ++ jsDefault (some "Venue V") "Venue" ++ " in "
            ++ venueLocationOf
                ⟨some "Artist A", some "Venue V", some "City", some "ST", none⟩
            ++ " | " ++ "TBD"
        , description := "Vote on " ++ jsDefault (some "Artist A") "Artist"
            ++ "\x27s setlist for their show at "
            ++ jsDefault (some "Venue V") "Venue" ++ " in "
            ++ venueLocationOf
                ⟨some "Artist A", some "Venue V", some "City", some "ST", none⟩
            ++ " on " ++ "TBD"
            ++ ". Influence what songs they\x27ll play live!" } :=
  ⟨rfl, c9_absent_date_tbd
    ⟨some "Artist A", some "Venue V", some "City", some "ST", none⟩
    (fun _ => none) rfl⟩

/-- C10: when no explicit track id is supplied and no track is selected, the
add-song click handler is a silent no-op: it performs no `handleAddSong`
invocation at all, for every track universe. -/
theorem c10_handleAddSongClick_noop (storedTracksData tracks : List Track) :
    handleAddSongClick none none storedTracksData tracks = none := by
  simp [handleAddSongClick, jsOrStr, jsTruthy]

end TheSet
